import Mathlib

/-!
Verification of the dialogue-turn controller of `dfd.py`, a conversational
triage assistant.  The core logic lives in three functions of the source:

* `extract_categorization` — scans a model reply for an embedded JSON
  payload, decodes it and validates/normalizes the `category` field;
* `call_openai_api` — wraps the completion-service call, catching every
  exception, surfacing it to the user, and returning `None`;
* `main` — the per-turn controller: appends the user message, invokes the
  service, runs the extractor, and decides whether the session becomes
  complete or continues.

Python strings are modelled as `List Char`, decoded JSON values as the
inductive `PyVal` (mirroring what Python's `json.loads` can produce:
ints, floats, strings, booleans, `None`, lists and dicts), and the
Streamlit session state as the structure `Session`.  The completion
service and the JSON decoder are external to the repository; theorems
quantify over them where possible, and a concrete executable model
`json_loads` of Python's `json.loads` (on the flat-object fragment
exercised here) instantiates them in witnesses.
-/

namespace DFD

/-- Values produced by Python's `json.loads`: JSON integers decode to
Python `int`, JSON numbers with a fractional part to `float` (a decimal
literal held exactly as `mantissa / 10 ^ shift`), JSON strings to `str`,
`true`/`false` to `bool`, `null` to `None`, and arrays/objects to
`list`/`dict`. -/
inductive PyVal where
  | int (n : Int)
  | float (mantissa : Int) (shift : Nat)
  | str (s : List Char)
  | bool (b : Bool)
  | null
  | list (elems : List PyVal)
  | dict (entries : List (List Char × PyVal))

/-- A decoded JSON object: a Python dict with string keys, modelled as an
association list without duplicate keys (Python's JSON decoder resolves
duplicates before the dict is returned). -/
abbrev PyDict := List (List Char × PyVal)

/-- Python dict lookup `d.get(k)` / `d[k]`: the binding of `k`, if any. -/
def dict_get (d : PyDict) (k : List Char) : Option PyVal :=
  match d with
  | [] => none
  | (k2, v) :: rest => if k2 = k then some v else dict_get rest k

/-- Python dict assignment `d[k] = v`: replaces the binding of `k` in
place if the key is present, otherwise appends a new binding. -/
def dict_set (d : PyDict) (k : List Char) (v : PyVal) : PyDict :=
  match d with
  | [] => [(k, v)]
  | (k2, w) :: rest => if k2 = k then (k2, v) :: rest else (k2, w) :: dict_set rest k v

/-- Python dict key test `k in d`. -/
def dict_has (d : PyDict) (k : List Char) : Bool :=
  (dict_get d k).isSome

/-- Exceptions that the modelled Python operations can raise. -/
inductive PyErr where
  | valueError
  | typeError
  | jsonDecodeError

/-- Membership test `category in APPOINTMENT_CATEGORIES` for a hashable
value: the dict keys are the ints 1..4, and Python `in` compares with
numeric equality, so a float or a boolean numerically equal to one of the
four codes also passes (`True == 1`, `1.0 == 1`). -/
def isValidCategory (v : PyVal) : Bool :=
  match v with
  | .int n => n = 1 ∨ n = 2 ∨ n = 3 ∨ n = 4
  | .float m k =>
      m = 10 ^ k ∨ m = 2 * 10 ^ k ∨ m = 3 * 10 ^ k ∨ m = 4 * 10 ^ k
  | .bool b => b
  | _ => false

/-- The test `category not in APPOINTMENT_CATEGORIES` raises `TypeError`
when `category` is unhashable (a list or a dict); otherwise it reduces to
`isValidCategory`. -/
def py_contains_category (v : PyVal) : Except PyErr Bool :=
  match v with
  | .list _ => .error .typeError
  | .dict _ => .error .typeError
  | v => .ok (isValidCategory v)

/-- Discriminator: is this value a Python `int` (and not a `float` or
`bool` that merely compares equal to one)? -/
def PyVal.isInt : PyVal → Bool
  | .int _ => true
  | _ => false

/-- Discriminator: numeric values (`int`, `float`, `bool`). -/
def PyVal.isNumeric : PyVal → Bool
  | .int _ => true
  | .float _ _ => true
  | .bool _ => true
  | _ => false

/-- Decimal digit characters. -/
def isDigitChar (c : Char) : Bool := '0' ≤ c ∧ c ≤ '9'

/-- Numeric value of a string of decimal digits. -/
def digitsToNat : List Char → Nat → Nat
  | [], acc => acc
  | c :: cs, acc => digitsToNat cs (acc * 10 + (c.toNat - '0'.toNat))

/-- ASCII whitespace, as stripped by Python `int()` and skipped by
`json.loads`. -/
def isWsChar (c : Char) : Bool := c = ' ' ∨ c = '\t' ∨ c = '\n' ∨ c = '\r'

/-- Python `int(s)` on a string: strips surrounding whitespace, accepts an
optional sign followed by at least one decimal digit, and raises
`ValueError` (here: `none`) otherwise. -/
def py_int? (s : List Char) : Option Int :=
  let core := (s.dropWhile isWsChar).reverse.dropWhile isWsChar |>.reverse
  match core with
  | '-' :: ds =>
      if ds ≠ [] ∧ ds.all isDigitChar then some (-(digitsToNat ds 0 : Int)) else none
  | '+' :: ds =>
      if ds ≠ [] ∧ ds.all isDigitChar then some (digitsToNat ds 0 : Int) else none
  | ds =>
      if ds ≠ [] ∧ ds.all isDigitChar then some (digitsToNat ds 0 : Int) else none

/-- Python `response.find(c)`: index of the first occurrence of `c`
(`none` models the `-1` of the absent case, which the source rules out
with a membership guard first). -/
def py_find (c : Char) : List Char → Option Nat
  | [] => none
  | x :: xs => if x = c then some 0 else (py_find c xs).map (fun n => n + 1)

/-- Python `response.rfind(c)`: index of the last occurrence of `c`. -/
def py_rfind (c : Char) : List Char → Option Nat
  | [] => none
  | x :: xs =>
      match py_rfind c xs with
      | some n => some (n + 1)
      | none => if x = c then some 0 else none

/-- The slice `response[start:end]` with `start = response.find("{")` and
`end = response.rfind("}") + 1`, exactly as in lines 81-83 of the source. -/
def json_slice (cs : List Char) : List Char :=
  match py_find '{' cs, py_rfind '}' cs with
  | some start, some last => (cs.drop start).take (last + 1 - start)
  | _, _ => []

/-- The guarded candidate payload of `extract_categorization`: the source
first requires `"{" in response and "}" in response` and only then takes
the slice from the first `{` to the last `}` inclusive. -/
def candidate_payload (cs : List Char) : Option (List Char) :=
  if '{' ∈ cs ∧ '}' ∈ cs then some (json_slice cs) else none

/-- The dict key `"category"`. -/
def catKey : List Char := "category".toList

/-- The dict key `"reason"`. -/
def reasonKey : List Char := "reason".toList

/-- The string-to-int normalization step of the extractor: a `str`
category is passed through `int()` (whose `ValueError` the inner
`try` turns into `return None`); every other value is kept as is. -/
def normCat (v : PyVal) : Option PyVal :=
  match v with
  | .str s => (py_int? s).map PyVal.int
  | v => some v

/-- Body of `extract_categorization` (lines 78-101) before the enclosing
`try`/`except`: locate the candidate payload, decode it with the given
JSON decoder, require a `category` key, normalize a textual category,
check membership in the four valid codes, and write the normalized value
back into the dict.  Decoder failures and the `TypeError` of a membership
test on an unhashable value propagate as exceptions. -/
def extract_body (loads : List Char → Except PyErr PyDict) (response : List Char) :
    Except PyErr (Option PyDict) :=
  match candidate_payload response with
  | none => .ok none
  | some payload =>
    match loads payload with
    | .error e => .error e
    | .ok categorization =>
      match dict_get categorization catKey with
      | none => .ok none
      | some category =>
        match normCat category with
        | none => .ok none
        | some v =>
          match py_contains_category v with
          | .error e => .error e
          | .ok true => .ok (some (dict_set categorization catKey v))
          | .ok false => .ok none

/-- `extract_categorization` as its callers see it: the enclosing
`try`/`except Exception` turns every raised exception into `return None`
(line 102-105). -/
def extract_categorization (loads : List Char → Except PyErr PyDict)
    (response : List Char) : Option PyDict :=
  match extract_body loads response with
  | .ok r => r
  | .error _ => none

/-! ### A concrete model of `json.loads`

The extractor calls Python's `json.loads`, an external library.  The
following executable decoder models it on the flat-object fragment that
the witnesses below exercise: one object of string keys with string,
integer, decimal, boolean or null values, no nesting, no string escapes,
no exponents.  It is a sound fragment: whenever it succeeds, Python's
`json.loads` succeeds on the same input with the same value. -/

/-- Skip JSON whitespace. -/
def skipWs : List Char → List Char
  | [] => []
  | c :: cs => if isWsChar c then skipWs cs else c :: cs

/-- Body of a JSON string literal after the opening quote: the characters
up to the closing quote.  Escapes are outside the modelled fragment. -/
def parseStrBody : List Char → Option (List Char × List Char)
  | [] => none
  | c :: cs =>
      if c = '"' then some ([], cs)
      else if c = '\\' then none
      else (parseStrBody cs).map (fun r => (c :: r.1, r.2))

/-- Longest leading run of decimal digits. -/
def parseDigits : List Char → List Char × List Char
  | [] => ([], [])
  | c :: cs =>
      if isDigitChar c then
        let r := parseDigits cs
        (c :: r.1, r.2)
      else ([], c :: cs)

/-- A JSON number: optional minus sign, digits, optional fractional part.
An integer literal decodes to a Python `int`, a literal with a decimal
point to a Python `float` (held exactly as a rational). -/
def parseNumber (cs : List Char) : Option (PyVal × List Char) :=
  let (neg, cs1) := match cs with
    | '-' :: rest => (true, rest)
    | _ => (false, cs)
  let (ds, cs2) := parseDigits cs1
  if ds = [] then none
  else
    let intPart : Int := digitsToNat ds 0
    match cs2 with
    | '.' :: cs3 =>
        let (fs, cs4) := parseDigits cs3
        if fs = [] then none
        else
          let m : Int := digitsToNat (ds ++ fs) 0
          some (.float (if neg then -m else m) fs.length, cs4)
    | _ => some (.int (if neg then -intPart else intPart), cs2)

/-- A JSON value of the flat fragment: string, number, `true`, `false` or
`null`. -/
def parseValue (cs : List Char) : Option (PyVal × List Char) :=
  match skipWs cs with
  | '"' :: rest => (parseStrBody rest).map (fun r => (.str r.1, r.2))
  | 't' :: 'r' :: 'u' :: 'e' :: rest => some (.bool true, rest)
  | 'f' :: 'a' :: 'l' :: 's' :: 'e' :: rest => some (.bool false, rest)
  | 'n' :: 'u' :: 'l' :: 'l' :: rest => some (.null, rest)
  | cs1 => parseNumber cs1

/-- One `"key": value` member of an object. -/
def parseMember (cs : List Char) : Option ((List Char × PyVal) × List Char) :=
  match skipWs cs with
  | '"' :: rest =>
      match parseStrBody rest with
      | none => none
      | some (key, rest1) =>
          match skipWs rest1 with
          | ':' :: rest2 =>
              (parseValue rest2).map (fun r => ((key, r.1), r.2))
          | _ => none
  | _ => none

/-- The members of an object after its opening brace, folded into a dict
with Python's last-value-wins treatment of duplicate keys.  The fuel
argument bounds the recursion by the input length. -/
def parseMembers (fuel : Nat) (acc : PyDict) (cs : List Char) : Option (PyDict × List Char) :=
  match fuel with
  | 0 => none
  | fuel + 1 =>
      match parseMember cs with
      | none => none
      | some ((k, v), rest) =>
          let acc1 := dict_set acc k v
          match skipWs rest with
          | ',' :: rest1 => parseMembers fuel acc1 rest1
          | '}' :: rest1 => some (acc1, rest1)
          | _ => none

/-- Model of Python's `json.loads` on the flat-object fragment: a single
object that must span the whole input up to surrounding whitespace;
anything else raises `json.JSONDecodeError`. -/
def json_loads (cs : List Char) : Except PyErr PyDict :=
  match skipWs cs with
  | '{' :: rest =>
      match skipWs rest with
      | '}' :: rest1 =>
          if (skipWs rest1).isEmpty then .ok [] else .error .jsonDecodeError
      | rest1 =>
          match parseMembers (rest1.length + 1) [] rest1 with
          | some (d, rest2) =>
              if (skipWs rest2).isEmpty then .ok d else .error .jsonDecodeError
          | none => .error .jsonDecodeError
  | _ => .error .jsonDecodeError

/-! ### Session state and the dialogue controller -/

/-- Message roles of the chat history. -/
inductive Role where
  | system
  | user
  | assistant
deriving DecidableEq

/-- One chat message, as stored in `st.session_state.messages`. -/
structure Message where
  role : Role
  content : List Char
deriving DecidableEq

/-- The Streamlit session state owned by the controller:
`st.session_state.messages`, `st.session_state.categorization_complete`
and `st.session_state.final_category`. -/
structure Session where
  messages : List Message
  categorization_complete : Bool
  final_category : Option PyDict

/-- The initial session state established by `initialize_session_state`. -/
def init_session : Session :=
  { messages := [], categorization_complete := false, final_category := none }

/-- The reset handled by the new-conversation button (lines 216-220):
empty history, completion flag cleared, result cleared. -/
def reset (_ : Session) : Session := init_session

/-- Outcome of one completion-service request: a reply (whose content the
API types as optional), or a raised exception. -/
inductive ApiResult where
  | ok (content : Option (List Char))
  | fail (err : List Char)

/-- `call_openai_api` (lines 62-74): the request itself — system prompt
prepended, model name, token bound and temperature — is the external
service abstracted as `api`.  On success the reply content is returned;
any exception is caught, shown to the user with `st.error`, and turned
into `None`.  The boolean records whether an error was surfaced. -/
def call_openai_api (api : List Message → ApiResult) (messages : List Message) :
    Option (List Char) × Bool :=
  match api messages with
  | .ok c => (c, false)
  | .fail _ => (none, true)

/-- Lines 194-213 of `main`: a truthy reply is passed through the
extractor; a non-empty categorization with both a `category` and a
`reason` binding whose category passes the membership re-check completes
the session (the raw reply is not appended); anything else appends the
raw reply as an assistant message.  `msgs` is the history with the user
message already appended, `err` whether `st.error` was shown this turn. -/
def turn_with_reply (loads : List Char → Except PyErr PyDict) (s : Session)
    (msgs : List Message) (response : List Char) (err : Bool) : Session × Bool :=
  match extract_categorization loads response with
  | some categorization =>
      if !categorization.isEmpty && dict_has categorization catKey
          && dict_has categorization reasonKey then
        match dict_get categorization catKey with
        | some category =>
            if isValidCategory category then
              ({ messages := msgs, categorization_complete := true,
                 final_category := some categorization }, err)
            else
              ({ s with messages := msgs ++ [Message.mk .assistant response] }, err)
        | none =>
            ({ s with messages := msgs ++ [Message.mk .assistant response] }, err)
      else
        ({ s with messages := msgs ++ [Message.mk .assistant response] }, err)
  | none =>
      ({ s with messages := msgs ++ [Message.mk .assistant response] }, err)

/-- One turn of the controller in `main` (lines 180-213).  When the
session is already complete the chat input is not rendered, so a
submitted prompt changes nothing.  Otherwise the user message is appended
first (line 183), the service is called, a falsy reply (`None` or the
empty string, line 192) ends the turn with only the user message
appended, and a truthy reply goes through `turn_with_reply`. -/
def process_input (loads : List Char → Except PyErr PyDict)
    (api : List Message → ApiResult) (s : Session) (prompt : List Char) :
    Session × Bool :=
  if s.categorization_complete then (s, false)
  else
    match call_openai_api api (s.messages ++ [Message.mk .user prompt]) with
    | (none, err) => ({ s with messages := s.messages ++ [Message.mk .user prompt] }, err)
    | (some response, err) =>
      if response.isEmpty then
        ({ s with messages := s.messages ++ [Message.mk .user prompt] }, err)
      else
        turn_with_reply loads s (s.messages ++ [Message.mk .user prompt]) response err

/-- Sessions reachable from the initial state through the operations the
controller defines: processing a user input (under an arbitrary service
behaviour) and the reset button. -/
inductive Reachable (loads : List Char → Except PyErr PyDict) : Session → Prop where
  | init : Reachable loads init_session
  | step (s : Session) (api : List Message → ApiResult) (prompt : List Char) :
      Reachable loads s → Reachable loads (process_input loads api s prompt).1
  | reset_step (s : Session) : Reachable loads s → Reachable loads (reset s)

/-- The part of the spec's validity invariant that the code maintains:
a complete session stores a dict whose `category` passes the membership
test and which has a `reason` binding. -/
def SessionInv (s : Session) : Prop :=
  s.categorization_complete = true →
    ∃ d, s.final_category = some d ∧
      (∃ v, dict_get d catKey = some v ∧ isValidCategory v = true) ∧
      dict_has d reasonKey = true

/-! ### Concrete inputs for witnesses and counterexamples -/

/-- A reply whose payload carries a valid category and an empty reason. -/
def c1_reply : List Char := "\x7b\"category\": 1, \"reason\": \"\"\x7d".toList

/-- A service that answers every request with `c1_reply`. -/
def c1_api : List Message → ApiResult := fun _ => ApiResult.ok (some c1_reply)

/-- A user prompt. -/
def c1_prompt : List Char := "hi".toList

/-- The session after one turn answered by `c1_reply`. -/
def c1_state : Session := (process_input json_loads c1_api init_session c1_prompt).1

/-- The spec's scenario-1 reply: preamble followed by a complete payload. -/
def c1w_reply : List Char :=
  "let me check \x7b\"category\": 2, \"reason\": \"travel vaccination request\"\x7d".toList

/-- A service that answers every request with `c1w_reply`. -/
def c1w_api : List Message → ApiResult := fun _ => ApiResult.ok (some c1w_reply)

/-- The session after one turn answered by `c1w_reply`. -/
def c1w_state : Session := (process_input json_loads c1w_api init_session c1_prompt).1

/-- A terminal session with a populated result. -/
def c2_state : Session :=
  { messages := [Message.mk .user "a".toList],
    categorization_complete := true,
    final_category := some [(catKey, PyVal.int 4), (reasonKey, PyVal.str ['r'])] }

/-- A reply whose decoded category is the float `1.0`. -/
def c3_input : List Char := "\x7b\"category\": 1.0, \"reason\": \"x\"\x7d".toList

/-- What the extractor accepts from `c3_input`: the category is still the
float `1.0`, not an `int`. -/
def c3_dict : PyDict := [(catKey, PyVal.float 10 1), (reasonKey, PyVal.str ['x'])]

/-- A reply whose decoded category is the numeric string `"3"`. -/
def c3w_input : List Char := "pre \x7b\"category\": \"3\", \"reason\": \"r\"\x7d post".toList

/-- What the extractor accepts from `c3w_input`: the string category has
been converted to the int `3`. -/
def c3w_dict : PyDict := [(catKey, PyVal.int 3), (reasonKey, PyVal.str ['r'])]

/-- A service whose every call raises. -/
def c4_api : List Message → ApiResult := fun _ => ApiResult.fail "boom".toList

/-- An input with one brace pair and surrounding text. -/
def c5_input : List Char := "a\x7bz\x7db".toList

/-- The spec's scenario-3 reply: category `"9"` converts to `9`, which
fails the validity check. -/
def c6_input : List Char := "pre \x7b\"category\": \"9\", \"reason\": \"unclear\"\x7d".toList

/-- The candidate payload of `c6_input`. -/
def c6_payload : List Char := "\x7b\"category\": \"9\", \"reason\": \"unclear\"\x7d".toList

/-- The decoded payload of `c6_input`. -/
def c6_decoded : PyDict := [(catKey, PyVal.str ['9']), (reasonKey, PyVal.str "unclear".toList)]

/-- The spec's scenario-4 reply: a valid category but no reason field. -/
def c7_reply : List Char := "\x7b\"category\": 1\x7d".toList

/-- A reply whose brace pair does not enclose valid JSON. -/
def c9_input : List Char := "\x7b]\x7d".toList

/-! ### Helper lemmas -/

/-- `py_find` returns the index of the first occurrence: the character is
there, and no earlier index holds it. -/
theorem py_find_eq_some (c : Char) (cs : List Char) (i : Nat)
    (h : py_find c cs = some i) :
    cs.get? i = some c ∧ ∀ k, k < i → cs.get? k ≠ some c := by
  induction cs generalizing i with
  | nil => simp [py_find] at h
  | cons x xs ih =>
    unfold py_find at h
    by_cases hx : x = c
    · rw [if_pos hx] at h
      cases h
      exact ⟨by simp [hx], by intro k hk; omega⟩
    · rw [if_neg hx] at h
      cases hfind : py_find c xs with
      | none => rw [hfind] at h; simp at h
      | some n =>
        rw [hfind] at h
        simp only [Option.map] at h
        cases h
        obtain ⟨h1, h2⟩ := ih n hfind
        refine ⟨by simpa using h1, ?_⟩
        intro k hk
        cases k with
        | zero => simpa using hx
        | succ k =>
          intro hkc
          exact h2 k (by omega) (by simpa using hkc)

/-- A present character is found. -/
theorem py_find_isSome (c : Char) (cs : List Char) (h : c ∈ cs) :
    (py_find c cs).isSome = true := by
  induction cs with
  | nil => cases h
  | cons x xs ih =>
    unfold py_find
    by_cases hx : x = c
    · simp [hx]
    · rw [if_neg hx]
      rcases List.mem_cons.mp h with h1 | h2
      · exact absurd h1.symm hx
      · have h3 := ih h2
        cases hfind : py_find c xs with
        | none => rw [hfind] at h3; simp at h3
        | some n => simp

/-- A present character is found by the backwards scan. -/
theorem py_rfind_isSome (c : Char) (cs : List Char) (h : c ∈ cs) :
    (py_rfind c cs).isSome = true := by
  induction cs with
  | nil => cases h
  | cons x xs ih =>
    unfold py_rfind
    cases hr : py_rfind c xs with
    | some n => simp
    | none =>
      rcases List.mem_cons.mp h with h1 | h2
      · simp [h1.symm]
      · have := ih h2
        rw [hr] at this
        simp at this

/-- `py_rfind` returns the index of the last occurrence: the character is
there, and no later index holds it. -/
theorem py_rfind_eq_some (c : Char) (cs : List Char) (j : Nat)
    (h : py_rfind c cs = some j) :
    cs.get? j = some c ∧ ∀ k, j < k → cs.get? k ≠ some c := by
  induction cs generalizing j with
  | nil => simp [py_rfind] at h
  | cons x xs ih =>
    unfold py_rfind at h
    cases hr : py_rfind c xs with
    | some n =>
      rw [hr] at h
      cases h
      obtain ⟨h1, h2⟩ := ih n hr
      refine ⟨by simpa using h1, ?_⟩
      intro k hk
      cases k with
      | zero => omega
      | succ k =>
        intro hkc
        exact h2 k (by omega) (by simpa using hkc)
    | none =>
      rw [hr] at h
      by_cases hx : x = c
      · rw [if_pos hx] at h
        cases h
        refine ⟨by simp [hx], ?_⟩
        intro k hk
        cases k with
        | zero => omega
        | succ k =>
          intro hkc
          have hmem : c ∈ xs := List.get?_mem (by simpa using hkc)
          have := py_rfind_isSome c xs hmem
          rw [hr] at this
          simp at this
      · rw [if_neg hx] at h
        simp at h

/-- Looking up the key just written returns the written value. -/
theorem dict_get_set_self (d : PyDict) (k : List Char) (v : PyVal) :
    dict_get (dict_set d k v) k = some v := by
  induction d with
  | nil => simp [dict_set, dict_get]
  | cons kv rest ih =>
    obtain ⟨k2, w⟩ := kv
    unfold dict_set
    by_cases hk : k2 = k
    · rw [if_pos hk]
      unfold dict_get
      rw [if_pos hk]
    · rw [if_neg hk]
      unfold dict_get
      rw [if_neg hk]
      exact ih

/-- Writing one key leaves the other lookups unchanged. -/
theorem dict_get_set_other (d : PyDict) (k k2 : List Char) (v : PyVal)
    (h : k ≠ k2) : dict_get (dict_set d k v) k2 = dict_get d k2 := by
  induction d with
  | nil => simp [dict_set, dict_get, h]
  | cons kv rest ih =>
    obtain ⟨k3, w⟩ := kv
    unfold dict_set
    by_cases hk : k3 = k
    · rw [if_pos hk]
      unfold dict_get
      subst hk
      rw [if_neg h, if_neg h]
    · rw [if_neg hk]
      unfold dict_get
      by_cases hk2 : k3 = k2
      · rw [if_pos hk2, if_pos hk2]
      · rw [if_neg hk2, if_neg hk2]
        exact ih

/-- A membership test that answered `true` certifies a valid, numeric
category. -/
theorem py_contains_ok_true (v : PyVal) (h : py_contains_category v = Except.ok true) :
    isValidCategory v = true ∧ v.isNumeric = true := by
  cases v <;>
    simp_all [py_contains_category, isValidCategory, PyVal.isNumeric]

/-- On a numeric value the membership test never raises. -/
theorem py_contains_numeric (v : PyVal) (h : v.isNumeric = true) :
    py_contains_category v = Except.ok (isValidCategory v) := by
  cases v <;> simp_all [PyVal.isNumeric] <;> rfl

/-- Inversion of a successful extraction: the response had a brace pair,
its payload decoded, the decoded dict had a category that normalized to a
value passing the membership test, and the result is the decoded dict
with the normalized category written back. -/
theorem extract_eq_some_inv (loads : List Char → Except PyErr PyDict)
    (cs : List Char) (d : PyDict)
    (h : extract_categorization loads cs = some d) :
    ∃ p c cat v, candidate_payload cs = some p ∧ loads p = Except.ok c ∧
      dict_get c catKey = some cat ∧ normCat cat = some v ∧
      py_contains_category v = Except.ok true ∧ d = dict_set c catKey v := by
  cases hp : candidate_payload cs with
  | none => simp [extract_categorization, extract_body, hp] at h
  | some p =>
    cases hl : loads p with
    | error e => simp [extract_categorization, extract_body, hp, hl] at h
    | ok c =>
      cases hg : dict_get c catKey with
      | none => simp [extract_categorization, extract_body, hp, hl, hg] at h
      | some cat =>
        cases hn : normCat cat with
        | none => simp [extract_categorization, extract_body, hp, hl, hg, hn] at h
        | some v =>
          cases hcc : py_contains_category v with
          | error e => simp [extract_categorization, extract_body, hp, hl, hg, hn, hcc] at h
          | ok b =>
            cases b with
            | false => simp [extract_categorization, extract_body, hp, hl, hg, hn, hcc] at h
            | true =>
              simp only [extract_categorization, extract_body, hp, hl, hg, hn, hcc,
                Option.some_inj] at h
              exact ⟨p, c, cat, v, rfl, hl, hg, hn, hcc, h.symm⟩

/-- A complete session ignores submitted input: the chat input is only
rendered when the completion flag is down. -/
theorem process_input_of_complete (loads : List Char → Except PyErr PyDict)
    (api : List Message → ApiResult) (s : Session) (prompt : List Char)
    (hc : s.categorization_complete = true) :
    process_input loads api s prompt = (s, false) := by
  simp [process_input, hc]

/-- Processing a truthy reply either leaves the flag and the result as
they were (appending at most one assistant message), or completes the
session with a dict that has a valid category and a reason binding. -/
theorem turn_with_reply_cases (loads : List Char → Except PyErr PyDict)
    (s : Session) (msgs : List Message) (response : List Char) (err : Bool) :
    ((turn_with_reply loads s msgs response err).1.categorization_complete
        = s.categorization_complete ∧
     (turn_with_reply loads s msgs response err).1.final_category = s.final_category) ∨
    (∃ d v, turn_with_reply loads s msgs response err =
        ({ messages := msgs, categorization_complete := true,
           final_category := some d }, err) ∧
      dict_get d catKey = some v ∧ isValidCategory v = true ∧
      dict_has d reasonKey = true) := by
  unfold turn_with_reply
  split
  next categorization he =>
    split
    next hcond =>
      split
      next category hg =>
        split
        next hv =>
          right
          refine ⟨categorization, category, rfl, hg, hv, ?_⟩
          exact ((Bool.and_eq_true _ _).mp hcond).2
        next hv => left; exact ⟨rfl, rfl⟩
      next hg => left; exact ⟨rfl, rfl⟩
    next hcond => left; exact ⟨rfl, rfl⟩
  next he => left; exact ⟨rfl, rfl⟩

/-- One processed turn preserves the session invariant. -/
theorem process_input_preserves_inv (loads : List Char → Except PyErr PyDict)
    (api : List Message → ApiResult) (s : Session) (prompt : List Char)
    (hs : SessionInv s) : SessionInv (process_input loads api s prompt).1 := by
  by_cases hc : s.categorization_complete = true
  · rw [process_input_of_complete loads api s prompt hc]
    exact hs
  · unfold process_input
    rw [if_neg hc]
    split
    · intro hcontra
      exact absurd hcontra hc
    · next response err heq =>
        split
        · intro hcontra
          exact absurd hcontra hc
        · rcases turn_with_reply_cases loads s (s.messages ++ [Message.mk .user prompt])
              response err with ⟨h1, _⟩ | ⟨d, v, heq2, hg, hv, hr⟩
          · intro hcontra
            rw [h1] at hcontra
            exact absurd hcontra hc
          · rw [heq2]
            intro _
            exact ⟨d, rfl, ⟨v, hg, hv⟩, hr⟩

/-- Every reachable session satisfies the invariant. -/
theorem reachable_inv (loads : List Char → Except PyErr PyDict) (s : Session)
    (h : Reachable loads s) : SessionInv s := by
  induction h with
  | init => intro hc; simp [init_session] at hc
  | step s api prompt _ ih => exact process_input_preserves_inv loads api s prompt ih
  | reset_step s _ _ => intro hc; simp [reset, init_session] at hc

/-! ### Claim theorems -/

/-- C1 (amended): for every reachable session, if the completion flag is
true then the stored result has a category passing the membership test
(numerically one of 1, 2, 3, 4) and a `reason` binding.  The code checks
only the presence of the `reason` field, not that it is a non-empty
string, so the non-emptiness part of the claim is dropped. -/
theorem C1_validity_invariant (loads : List Char → Except PyErr PyDict) (s : Session)
    (h : Reachable loads s) (hc : s.categorization_complete = true) :
    ∃ d, s.final_category = some d ∧
      (∃ v, dict_get d catKey = some v ∧ isValidCategory v = true) ∧
      dict_has d reasonKey = true :=
  reachable_inv loads s h hc

/-- C1 witness: the scenario-1 turn reaches a complete session and the
invariant holds there. -/
theorem C1_validity_invariant_witness :
    ∃ d, c1w_state.final_category = some d ∧
      (∃ v, dict_get d catKey = some v ∧ isValidCategory v = true) ∧
      dict_has d reasonKey = true :=
  C1_validity_invariant json_loads c1w_state
    (Reachable.step init_session c1w_api c1_prompt Reachable.init) rfl

/-- C1 counterexample: one turn answered by a payload with category `1`
and an empty reason reaches a complete session whose stored reason is the
empty string, refuting the claim that `result.reason` is non-empty. -/
theorem C1_counterexample :
    Reachable json_loads c1_state ∧
    c1_state.categorization_complete = true ∧
    c1_state.final_category = some [(catKey, PyVal.int 1), (reasonKey, PyVal.str [])] ∧
    dict_get [(catKey, PyVal.int 1), (reasonKey, PyVal.str [])] reasonKey
      = some (PyVal.str []) :=
  ⟨Reachable.step init_session c1_api c1_prompt Reachable.init, rfl, rfl, rfl⟩

/-- C2: once the completion flag is true, a submitted user input is
ignored: the processed turn returns the session unchanged and shows no
error, so no operation other than reset changes history, result or
flag. -/
theorem C2_terminal_input_ignored (loads : List Char → Except PyErr PyDict)
    (api : List Message → ApiResult) (s : Session) (prompt : List Char)
    (hc : s.categorization_complete = true) :
    process_input loads api s prompt = (s, false) :=
  process_input_of_complete loads api s prompt hc

/-- C2 witness: a concrete complete session is left unchanged by a
further input. -/
theorem C2_terminal_input_ignored_witness :
    process_input json_loads c1_api c2_state c1_prompt = (c2_state, false) :=
  C2_terminal_input_ignored json_loads c1_api c2_state c1_prompt rfl

/-- C3 (amended): an accepted Categorization always carries a category
that passes the membership test (numerically one of 1, 2, 3, 4) and is
numeric, and a category that arrived as a string has been converted to
int; but a float or boolean category equal to a valid code is carried
through without conversion to the canonical integer type. -/
theorem C3_extract_amended (loads : List Char → Except PyErr PyDict)
    (cs : List Char) (d : PyDict)
    (h : extract_categorization loads cs = some d) :
    ∃ v, dict_get d catKey = some v ∧ isValidCategory v = true ∧
      v.isNumeric = true ∧
      (∀ p c s, candidate_payload cs = some p → loads p = Except.ok c →
        dict_get c catKey = some (PyVal.str s) →
        ∃ n, py_int? s = some n ∧ v = PyVal.int n) := by
  obtain ⟨p, c, cat, v, hp, hl, hg, hn, hcc, hd⟩ := extract_eq_some_inv loads cs d h
  obtain ⟨hval, hnum⟩ := py_contains_ok_true v hcc
  refine ⟨v, ?_, hval, hnum, ?_⟩
  · rw [hd]
    exact dict_get_set_self c catKey v
  · intro p2 c2 s hp2 hl2 hg2
    rw [hp] at hp2
    obtain rfl : p = p2 := Option.some.inj hp2
    rw [hl] at hl2
    obtain rfl : c = c2 := Except.ok.inj hl2
    rw [hg] at hg2
    obtain rfl : cat = PyVal.str s := Option.some.inj hg2
    have hn2 : Option.map PyVal.int (py_int? s) = some v := hn
    cases hpi : py_int? s with
    | none => rw [hpi] at hn2; simp at hn2
    | some n =>
      rw [hpi] at hn2
      simp only [Option.map_some'] at hn2
      exact ⟨n, rfl, (Option.some.inj hn2).symm⟩

/-- C3 witness: the accepted payload with the string category `"3"` has
it converted to the int `3`. -/
theorem C3_extract_amended_witness :
    ∃ v, dict_get c3w_dict catKey = some v ∧ isValidCategory v = true ∧
      v.isNumeric = true ∧
      (∀ p c s, candidate_payload c3w_input = some p → json_loads p = Except.ok c →
        dict_get c catKey = some (PyVal.str s) →
        ∃ n, py_int? s = some n ∧ v = PyVal.int n) :=
  C3_extract_amended json_loads c3w_input c3w_dict rfl

/-- C3 counterexample: the reply whose payload has category `1.0` is
accepted, but the stored category is still the float `1.0`, not a value
of the canonical integer type. -/
theorem C3_counterexample :
    extract_categorization json_loads c3_input = some c3_dict ∧
    dict_get c3_dict catKey = some (PyVal.float 10 1) ∧
    (PyVal.float 10 1).isInt = false :=
  ⟨rfl, rfl, rfl⟩

/-- C4 (amended): on service failure the controller surfaces a
user-visible error and the call yields `None` instead of raising; the
turn leaves the completion flag false and changes the history exactly by
the user message appended before the call — no assistant message. -/
theorem C4_api_failure_amended (loads : List Char → Except PyErr PyDict)
    (api : List Message → ApiResult) (s : Session) (prompt e : List Char)
    (hc : s.categorization_complete = false)
    (hfail : api (s.messages ++ [Message.mk .user prompt]) = ApiResult.fail e) :
    call_openai_api api (s.messages ++ [Message.mk .user prompt]) = (none, true) ∧
    process_input loads api s prompt =
      ({ s with messages := s.messages ++ [Message.mk .user prompt] }, true) ∧
    (process_input loads api s prompt).1.categorization_complete = false := by
  have hcall : call_openai_api api (s.messages ++ [Message.mk .user prompt])
      = (none, true) := by
    unfold call_openai_api
    rw [hfail]
  have h2 : process_input loads api s prompt =
      ({ s with messages := s.messages ++ [Message.mk .user prompt] }, true) := by
    unfold process_input
    rw [if_neg (by simp [hc]), hcall]
  exact ⟨hcall, h2, by rw [h2]; exact hc⟩

/-- C4 witness: a concrete failing service call on the initial session. -/
theorem C4_api_failure_amended_witness :
    call_openai_api c4_api (init_session.messages ++ [Message.mk .user c1_prompt])
      = (none, true) ∧
    process_input json_loads c4_api init_session c1_prompt =
      ({ init_session with
          messages := init_session.messages ++ [Message.mk .user c1_prompt] }, true) ∧
    (process_input json_loads c4_api init_session c1_prompt).1.categorization_complete
      = false :=
  C4_api_failure_amended json_loads c4_api init_session c1_prompt "boom".toList rfl rfl

/-- C4 counterexample: after a failed call the history is not unchanged —
the user message appended at the start of the turn remains. -/
theorem C4_counterexample :
    (process_input json_loads c4_api init_session c1_prompt).1.messages ≠
      init_session.messages := by
  decide

/-- C5: when the response contains a `{` and a `}` the candidate payload
is the slice from the first `{` (no earlier index holds one) to the last
`}` (no later index holds one) inclusive; when it lacks one of them the
extractor returns `none` rather than an error. -/
theorem C5_candidate_payload (loads : List Char → Except PyErr PyDict) (cs : List Char) :
    (∀ i, py_find '{' cs = some i →
      cs.get? i = some '{' ∧ ∀ k, k < i → cs.get? k ≠ some '{') ∧
    (∀ j, py_rfind '}' cs = some j →
      cs.get? j = some '}' ∧ ∀ k, j < k → cs.get? k ≠ some '}') ∧
    ('{' ∈ cs → (py_find '{' cs).isSome = true) ∧
    ('}' ∈ cs → (py_rfind '}' cs).isSome = true) ∧
    (∀ i j, py_find '{' cs = some i → py_rfind '}' cs = some j →
      candidate_payload cs = some ((cs.drop i).take (j + 1 - i))) ∧
    (¬ ('{' ∈ cs ∧ '}' ∈ cs) → extract_categorization loads cs = none) := by
  refine ⟨py_find_eq_some '{' cs, py_rfind_eq_some '}' cs,
    py_find_isSome '{' cs, py_rfind_isSome '}' cs, ?_, ?_⟩
  · intro i j hi hj
    have h1 : '{' ∈ cs := List.get?_mem (py_find_eq_some '{' cs i hi).1
    have h2 : '}' ∈ cs := List.get?_mem (py_rfind_eq_some '}' cs j hj).1
    unfold candidate_payload json_slice
    rw [if_pos ⟨h1, h2⟩, hi, hj]
  · intro hno
    unfold extract_categorization extract_body candidate_payload
    rw [if_neg hno]

/-- C5 witness: on `a{z}b` the payload is the slice between index 1 and
index 3 inclusive. -/
theorem C5_candidate_payload_witness :
    candidate_payload c5_input = some ((c5_input.drop 1).take (3 + 1 - 1)) :=
  (C5_candidate_payload json_loads c5_input).2.2.2.2.1 1 3 rfl rfl

/-- C6: the extractor returns `none` in each of the four cases: the
payload fails to decode; the decoded dict has no `category` key; the
category is textual and the int conversion fails; the numeric (possibly
converted) category is not one of the four valid codes. -/
theorem C6_extract_none_cases (loads : List Char → Except PyErr PyDict)
    (cs p : List Char) (hp : candidate_payload cs = some p) :
    (∀ e, loads p = Except.error e → extract_categorization loads cs = none) ∧
    (∀ c, loads p = Except.ok c → dict_get c catKey = none →
      extract_categorization loads cs = none) ∧
    (∀ c s, loads p = Except.ok c → dict_get c catKey = some (PyVal.str s) →
      py_int? s = none → extract_categorization loads cs = none) ∧
    (∀ c cat, loads p = Except.ok c → dict_get c catKey = some cat →
      ∀ v, normCat cat = some v → v.isNumeric = true → isValidCategory v = false →
      extract_categorization loads cs = none) := by
  refine ⟨?_, ?_, ?_, ?_⟩
  · intro e hl
    simp [extract_categorization, extract_body, hp, hl]
  · intro c hl hg
    simp [extract_categorization, extract_body, hp, hl, hg]
  · intro c s hl hg hpi
    simp [extract_categorization, extract_body, hp, hl, hg, normCat, hpi]
  · intro c cat hl hg v hn hnum hval
    have hcc := py_contains_numeric v hnum
    rw [hval] at hcc
    simp [extract_categorization, extract_body, hp, hl, hg, hn, hcc]

/-- C6 witness: the scenario-3 reply — category `"9"` converts to `9`,
which is rejected, so the extractor returns `none`. -/
theorem C6_extract_none_cases_witness :
    extract_categorization json_loads c6_input = none :=
  (C6_extract_none_cases json_loads c6_input c6_payload rfl).2.2.2 c6_decoded
    (PyVal.str ['9']) rfl rfl (PyVal.int 9) rfl rfl rfl

/-- C7: the scenario-4 reply decodes — the extractor accepts it since the
category is valid — but the controller's field-completeness check finds
no `reason`, so the turn appends the raw reply as an assistant message
and the session stays non-terminal. -/
theorem C7_missing_reason (s : Session) (prompt : List Char)
    (hc : s.categorization_complete = false) :
    extract_categorization json_loads c7_reply = some [(catKey, PyVal.int 1)] ∧
    process_input json_loads (fun _ => ApiResult.ok (some c7_reply)) s prompt =
      ({ s with messages := s.messages ++
          [Message.mk .user prompt, Message.mk .assistant c7_reply] }, false) ∧
    (process_input json_loads (fun _ => ApiResult.ok (some c7_reply))
      s prompt).1.categorization_complete = false := by
  have h2 : process_input json_loads (fun _ => ApiResult.ok (some c7_reply)) s prompt =
      ({ s with messages := s.messages ++
          [Message.mk .user prompt, Message.mk .assistant c7_reply] }, false) := by
    unfold process_input
    rw [if_neg (by simp [hc])]
    show ({ s with messages := (s.messages ++ [Message.mk .user prompt])
        ++ [Message.mk .assistant c7_reply] }, false) = _
    simp [List.append_assoc]
  exact ⟨rfl, h2, by rw [h2]; exact hc⟩

/-- C7 witness: the scenario-4 turn on the initial session. -/
theorem C7_missing_reason_witness :
    extract_categorization json_loads c7_reply = some [(catKey, PyVal.int 1)] ∧
    process_input json_loads (fun _ => ApiResult.ok (some c7_reply)) init_session
      c1_prompt =
      ({ init_session with messages := init_session.messages ++
          [Message.mk .user c1_prompt, Message.mk .assistant c7_reply] }, false) ∧
    (process_input json_loads (fun _ => ApiResult.ok (some c7_reply)) init_session
      c1_prompt).1.categorization_complete = false :=
  C7_missing_reason init_session c1_prompt rfl

/-- C8: the reset operation yields the empty initial state — empty
history, flag down, no result — regardless of the prior session. -/
theorem C8_reset_clears (s : Session) :
    reset s = { messages := [], categorization_complete := false, final_category := none } :=
  rfl

/-- C9: the extractor is total as its callers see it: every exception of
the body (decode failure, conversion failure, the membership test on an
unhashable value) is caught and becomes `none`, and a normal result is
passed through unchanged, so the caller sees a dict or `None`, never an
exception. -/
theorem C9_extract_total_catches (loads : List Char → Except PyErr PyDict)
    (cs : List Char) :
    (∀ e, extract_body loads cs = Except.error e →
      extract_categorization loads cs = none) ∧
    (∀ r, extract_body loads cs = Except.ok r →
      extract_categorization loads cs = r) := by
  constructor
  · intro e he
    unfold extract_categorization
    rw [he]
  · intro r hr
    unfold extract_categorization
    rw [hr]

/-- C9 witness: a brace pair around invalid JSON raises in the body and
the extractor returns `none`. -/
theorem C9_extract_total_catches_witness :
    extract_categorization json_loads c9_input = none :=
  (C9_extract_total_catches json_loads c9_input).1 PyErr.jsonDecodeError rfl

/-- C10: an empty-string reply is treated exactly like an absent reply,
because the reply is tested for truthiness: only the user message is
appended, no error is shown, the flag stays false, and the outcome equals
that of a `None` reply. -/
theorem C10_empty_reply_like_none (loads : List Char → Except PyErr PyDict)
    (s : Session) (prompt : List Char) (hc : s.categorization_complete = false) :
    process_input loads (fun _ => ApiResult.ok (some [])) s prompt =
      ({ s with messages := s.messages ++ [Message.mk .user prompt] }, false) ∧
    process_input loads (fun _ => ApiResult.ok (some [])) s prompt =
      process_input loads (fun _ => ApiResult.ok none) s prompt ∧
    (process_input loads (fun _ => ApiResult.ok (some []))
      s prompt).1.categorization_complete = false := by
  have h1 : process_input loads (fun _ => ApiResult.ok (some [])) s prompt =
      ({ s with messages := s.messages ++ [Message.mk .user prompt] }, false) := by
    unfold process_input
    rw [if_neg (by simp [hc])]
    rfl
  have h2 : process_input loads (fun _ => ApiResult.ok none) s prompt =
      ({ s with messages := s.messages ++ [Message.mk .user prompt] }, false) := by
    unfold process_input
    rw [if_neg (by simp [hc])]
    rfl
  exact ⟨h1, by rw [h1, h2], by rw [h1]; exact hc⟩

/-- C10 witness: the empty reply on the initial session. -/
theorem C10_empty_reply_like_none_witness :
    process_input json_loads (fun _ => ApiResult.ok (some [])) init_session c1_prompt =
      ({ init_session with
          messages := init_session.messages ++ [Message.mk .user c1_prompt] }, false) ∧
    process_input json_loads (fun _ => ApiResult.ok (some [])) init_session c1_prompt =
      process_input json_loads (fun _ => ApiResult.ok none) init_session c1_prompt ∧
    (process_input json_loads (fun _ => ApiResult.ok (some [])) init_session
      c1_prompt).1.categorization_complete = false :=
  C10_empty_reply_like_none json_loads init_session c1_prompt rfl

end DFD
